import Mathlib

/-!
Shallow embedding of pkg/sql/distsqlrun/server.go.

The embedding models the server entry points of the distsqlrun package:
the internal setupFlow procedure, the unary SetupFlow RPC, the streaming
RunSyncFlow RPC, the inbound stream handler flowStreamInt, and the
temp-storage ID generator. External collaborators that live outside this
file in the repository (the time-zone resolver, Flow.setup, the flow
scheduler, the stopper, the gRPC stream and the sync-flow mailbox) are
supplied as oracle parameters, so every control path of server.go is
represented faithfully. Resource effects (span start/finish, monitor
start/stop, bound-account open/close, flow lifecycle steps) are recorded
in an explicit event trace so that claims about resource acquisition and
release can be stated.
-/

namespace DistSQLRun

/-- Version identifies the distsqlrun protocol version (const Version = 4 in
server.go). -/
def Version : Nat := 4

/-- MinAcceptedVersion is the oldest version that the server is compatible
with (const MinAcceptedVersion = 4 in server.go). -/
def MinAcceptedVersion : Nat := 4

/-- A tracing span, identified by a number. -/
abbrev Span := Nat

/-- A Go context, modelled by the span value it carries; ContextWithSpan
replaces this field. A Go nil context is represented as none at use sites
(the return type of setupFlow is Option Context). -/
structure Context where
  span : Option Span
  deriving DecidableEq, Repr

/-- A time-zone location, as returned by sqlbase.TimeZoneStringToLocation. -/
structure Location where
  name : String
  deriving DecidableEq, Repr

/-- Flow identifier (FlowID wraps a uuid in the repository; a number here). -/
structure FlowID where
  id : Nat
  deriving DecidableEq, Repr

/-- Stream identifier. -/
structure StreamID where
  id : Nat
  deriving DecidableEq, Repr

/-- Go errors produced along the paths of server.go, one constructor per
distinct error source. Messages of errors coming from collaborators are
carried as strings. -/
inductive GoError where
  | versionMismatch (got minAccepted current : Nat)
  | nodeIDUnresolved
  | timeZoneError (msg : String)
  | flowSetupError (msg : String)
  | scheduleError (msg : String)
  | recvError (msg : String)
  | ioEOF
  | missingHeaderMessage
  | noHeaderInFirstMessage
  | missingSetupFlowRequest
  | runTaskError (msg : String)
  | connectError (msg : String)
  | processError (msg : String)
  | mboxError (msg : String)
  deriving DecidableEq, Repr

/-- Resource and lifecycle effects performed by the server code, recorded in
order of occurrence. -/
inductive Event where
  | spanStart (sp : Span) (parent : Option Span)
  | monitorStart
  | acctOpen
  | spanFinish (sp : Span)
  | monitorStop
  | acctClose
  | mboxStart
  | flowStart
  | flowWait
  | flowCleanup
  deriving DecidableEq, Repr

/-- The EvalContext part of a SetupFlowRequest: the fields of the request
that setupFlow reads. -/
structure EvalContext where
  Location : String
  Database : String
  SearchPath : List String
  StmtTimestampNanos : Int
  TxnTimestampNanos : Int
  ClusterTimestamp : Nat
  deriving DecidableEq, Repr

/-- The flow specification (req.Flow): the flow id plus an abstract
description of the processor DAG, consumed only by Flow.setup. -/
structure FlowSpec where
  flowID : FlowID
  dag : Nat
  deriving DecidableEq, Repr

/-- SetupFlowRequest: protocol version, transaction descriptor (abstract),
evaluation-context parameters and the flow specification. -/
structure SetupFlowRequest where
  Version : Nat
  Txn : Nat
  EvalContext : EvalContext
  Flow : FlowSpec
  deriving DecidableEq, Repr

/-- The evaluation context assembled by setupFlow (the data fields of
parser.EvalContext that setupFlow populates from the request and the
server). -/
structure FlowEvalContext where
  location : Location
  database : String
  searchPath : List String
  nodeID : Nat
  stmtTimestampNanos : Int
  txnTimestampNanos : Int
  clusterTimestamp : Nat
  deriving DecidableEq, Repr

/-- FlowCtx: the per-flow execution environment assembled by setupFlow. -/
structure FlowCtx where
  id : FlowID
  evalCtx : FlowEvalContext
  txn : Nat
  nodeID : Nat
  deriving DecidableEq, Repr

/-- Flow: the runtime object built by newFlow from a FlowCtx and the flow
specification. -/
structure Flow where
  flowCtx : FlowCtx
  spec : FlowSpec
  deriving DecidableEq, Repr

/-- ServerEnv bundles the server state and the external collaborators that
setupFlow consults: the resolved node id (ds.ServerConfig.NodeID.Get()),
the fresh span id that the tracer hands out, the time-zone resolver
(sqlbase.TimeZoneStringToLocation) and the DAG wiring step (Flow.setup),
both of which live outside server.go and are treated as oracles. -/
structure ServerEnv where
  nodeID : Nat
  freshSpan : Span
  tzToLocation : String → Except String Location
  flowSetup : FlowSpec → Except String Unit

/-- Result of setupFlow: the returned context (none models a Go nil
context), the returned flow pointer, the returned error, and the trace of
resource events the call performed. -/
structure SetupFlowResult where
  ctx : Option Context
  flow : Option Flow
  err : Option GoError
  events : List Event
  deriving DecidableEq, Repr

/-- setupFlow from server.go. Checks the version window, then the node
identity, then starts a span and attaches it to the context, starts the
flow monitor and opens a bound account on it, resolves the time zone
(failure finishes the span and aborts), assembles the evaluation context
and the FlowCtx, constructs the Flow and wires its DAG (failure finishes
the span, detaches it from the context and aborts). The monitor and
account are closed only by Flow.Cleanup, which is not part of setupFlow. -/
def setupFlow (env : ServerEnv) (ctx : Context) (parentSpan : Option Span)
    (req : SetupFlowRequest) : SetupFlowResult :=
  if req.Version < MinAcceptedVersion ∨ req.Version > Version then
    { ctx := some ctx, flow := none,
      err := some (.versionMismatch req.Version MinAcceptedVersion Version),
      events := [] }
  else
    let nodeID := env.nodeID
    if nodeID = 0 then
      { ctx := none, flow := none, err := some .nodeIDUnresolved, events := [] }
    else
      -- sp is a fresh root span when parentSpan is nil, and a FollowsFrom
      -- child of parentSpan otherwise; either way it is a new span, and the
      -- span-start event records which parent it follows from.
      let sp : Span := env.freshSpan
      let ctx1 : Context := { ctx with span := some sp }
      let evs : List Event := [.spanStart sp parentSpan, .monitorStart, .acctOpen]
      match env.tzToLocation req.EvalContext.Location with
      | .error e =>
          { ctx := some ctx1, flow := none, err := some (.timeZoneError e),
            events := evs ++ [.spanFinish sp] }
      | .ok location =>
          let evalCtx : FlowEvalContext :=
            { location := location
              database := req.EvalContext.Database
              searchPath := req.EvalContext.SearchPath
              nodeID := nodeID
              stmtTimestampNanos := req.EvalContext.StmtTimestampNanos
              txnTimestampNanos := req.EvalContext.TxnTimestampNanos
              clusterTimestamp := req.EvalContext.ClusterTimestamp }
          let flowCtx : FlowCtx :=
            { id := req.Flow.flowID, evalCtx := evalCtx, txn := req.Txn,
              nodeID := nodeID }
          let f : Flow := { flowCtx := flowCtx, spec := req.Flow }
          match env.flowSetup req.Flow with
          | .error e =>
              let ctx2 : Context := { ctx1 with span := none }
              { ctx := some ctx2, flow := none,
                err := some (.flowSetupError e),
                events := evs ++ [.spanFinish sp] }
          | .ok _ =>
              { ctx := some ctx1, flow := some f, err := none, events := evs }

/-- SetupSyncFlow from server.go: setupFlow with the span taken from the
incoming context as parent. -/
def SetupSyncFlow (env : ServerEnv) (ctx : Context) (req : SetupFlowRequest) :
    SetupFlowResult :=
  setupFlow env ctx ctx.span req

/-- SimpleResponse: the body of the unary SetupFlow response; Error is the
embedded structured error. -/
structure SimpleResponse where
  Error : Option GoError
  deriving DecidableEq, Repr

/-- SetupFlow (the unary RPC) from server.go: detaches from the incoming
context (context.Background()), keeps its span as parent, runs setupFlow,
then schedules the flow; any error from either step is embedded in the
SimpleResponse body and the transport-level error is nil. The scheduler is
an oracle. The result pairs the response with the transport-level error. -/
def ServerImplSetupFlow (env : ServerEnv)
    (schedule : Option Context → Option Flow → Option GoError)
    (ctx : Context) (req : SetupFlowRequest) :
    SimpleResponse × Option GoError :=
  let parentSpan := ctx.span
  let bg : Context := { span := none }
  let r := setupFlow env bg parentSpan req
  let err := match r.err with
    | none => schedule r.ctx r.flow
    | some e => some e
  match err with
  | some e => ({ Error := some e }, none)
  | none => ({ Error := none }, none)

/-- The first message of a RunSyncFlow stream; it may or may not carry a
SetupFlowRequest. -/
structure ConsumerSignal where
  SetupFlowRequest : Option SetupFlowRequest
  deriving DecidableEq, Repr

/-- Result of RunSyncFlow: the returned error and the trace of resource
events performed. -/
structure RunSyncFlowResult where
  err : Option GoError
  events : List Event
  deriving DecidableEq, Repr

/-- RunSyncFlow from server.go. Builds the outgoing mailbox, receives the
first message (recv1 is the oracle outcome of stream.Recv), requires it to
carry a SetupFlowRequest, performs SetupSyncFlow, then runs the supervised
task (runTask is the oracle outcome of Stopper.RunTask admission) that
starts the mailbox, starts the flow, waits and cleans up; finally returns
the terminal error recorded by the mailbox (mboxErr). -/
def RunSyncFlow (env : ServerEnv) (streamCtx : Context)
    (recv1 : Except GoError ConsumerSignal)
    (runTask : Except GoError Unit)
    (mboxErr : Option GoError) : RunSyncFlowResult :=
  match recv1 with
  | .error e => { err := some e, events := [] }
  | .ok firstMsg =>
    match firstMsg.SetupFlowRequest with
    | none => { err := some .missingSetupFlowRequest, events := [] }
    | some req =>
      let r := SetupSyncFlow env streamCtx req
      match r.err with
      | some e => { err := some e, events := r.events }
      | none =>
        match runTask with
        | .error e => { err := some e, events := r.events }
        | .ok _ =>
            { err := mboxErr,
              events := r.events ++
                [.mboxStart, .flowStart, .flowWait, .flowCleanup] }

/-- The header of the first message of a FlowStream connection. -/
structure StreamHeader where
  flowID : FlowID
  streamID : StreamID
  deriving DecidableEq, Repr

/-- A message of a FlowStream connection, as far as flowStreamInt inspects
it: an optional header. -/
structure ProducerMessage where
  Header : Option StreamHeader
  deriving DecidableEq, Repr

/-- Result of flowStreamInt: the returned error together with whether
ConnectInboundStream was attempted. -/
structure FlowStreamResult where
  err : Option GoError
  connectAttempted : Bool
  deriving DecidableEq, Repr

/-- flowStreamInt from server.go. Receives the first message (recv1 is the
oracle outcome of stream.Recv; io.EOF means a clean end of stream before
any data); a receive error or a missing header is a protocol error
returned before ConnectInboundStream is attempted. With a header present,
the registry connection (oracle connect) is attempted and, on success, the
stream-processing loop result (oracle process) is returned. -/
def flowStreamInt
    (recv1 : Except GoError ProducerMessage)
    (connect : FlowID → StreamID → Except GoError Unit)
    (process : Option GoError) : FlowStreamResult :=
  match recv1 with
  | .error e =>
      if e = .ioEOF then { err := some .missingHeaderMessage, connectAttempted := false }
      else { err := some e, connectAttempted := false }
  | .ok msg =>
    match msg.Header with
    | none => { err := some .noHeaderInFirstMessage, connectAttempted := false }
    | some hdr =>
      match connect hdr.flowID hdr.streamID with
      | .error e => { err := some e, connectAttempted := true }
      | .ok _ => { err := process, connectAttempted := true }

/-- TempStorageIDGenerator: a process-wide counter; nextID is the Go uint64
field, kept below 2 ^ 64. -/
structure TempStorageIDGenerator where
  nextID : Nat
  deriving DecidableEq, Repr

/-- NewID from server.go: atomic.AddUint64(&t.nextID, 1) — increments the
counter modulo 2 ^ 64 and returns the new value, together with the updated
generator state. -/
def TempStorageIDGenerator.NewID (t : TempStorageIDGenerator) :
    TempStorageIDGenerator × Nat :=
  let v := (t.nextID + 1) % 2 ^ 64
  ({ nextID := v }, v)

/-- The sequence of values returned by n successive NewID calls, together
with the final generator state. Concurrent callers of the atomic increment
serialize; this is the serialized sequence. -/
def TempStorageIDGenerator.newIDs :
    TempStorageIDGenerator → Nat → TempStorageIDGenerator × List Nat
  | t, 0 => (t, [])
  | t, n + 1 =>
    let r1 := t.NewID
    let r2 := r1.1.newIDs n
    (r2.1, r1.2 :: r2.2)

/-! Concrete fixtures used by witnesses and counterexamples. -/

/-- A server environment whose collaborators all succeed. -/
def envOK : ServerEnv :=
  { nodeID := 1, freshSpan := 7,
    tzToLocation := fun s => .ok { name := s },
    flowSetup := fun _ => .ok () }

/-- A server environment whose node id is still unresolved. -/
def envNoNode : ServerEnv :=
  { nodeID := 0, freshSpan := 7,
    tzToLocation := fun s => .ok { name := s },
    flowSetup := fun _ => .ok () }

/-- A server environment whose time-zone resolution fails. -/
def envTZFail : ServerEnv :=
  { nodeID := 1, freshSpan := 7,
    tzToLocation := fun _ => .error "unknown zone", flowSetup := fun _ => .ok () }

/-- A server environment whose DAG wiring step fails. -/
def envWireFail : ServerEnv :=
  { nodeID := 1, freshSpan := 7,
    tzToLocation := fun s => .ok { name := s },
    flowSetup := fun _ => .error "unknown processor" }

/-- A context carrying no span. -/
def ctx0 : Context := { span := none }

/-- A concrete evaluation-context payload. -/
def evalCtx0 : EvalContext :=
  { Location := "UTC", Database := "test", SearchPath := ["public"],
    StmtTimestampNanos := 1, TxnTimestampNanos := 2, ClusterTimestamp := 3 }

/-- A concrete flow specification. -/
def flowSpec0 : FlowSpec := { flowID := { id := 9 }, dag := 0 }

/-- A request at the accepted version. -/
def req4 : SetupFlowRequest :=
  { Version := 4, Txn := 0, EvalContext := evalCtx0, Flow := flowSpec0 }

/-- A request below the accepted version window. -/
def req3 : SetupFlowRequest :=
  { Version := 3, Txn := 0, EvalContext := evalCtx0, Flow := flowSpec0 }

/-! Claim theorems. -/

/-- Claim C2: a request whose version lies strictly outside
[MinAcceptedVersion, Version] makes setupFlow fail with the
version-mismatch error, returning the unchanged context, no flow, and an
empty event trace: no tracing span is started and no memory monitor or
bound account is opened by that call. -/
theorem c2_version_gate (env : ServerEnv) (ctx : Context)
    (parentSpan : Option Span) (req : SetupFlowRequest)
    (h : req.Version < MinAcceptedVersion ∨ req.Version > Version) :
    setupFlow env ctx parentSpan req =
      { ctx := some ctx, flow := none,
        err := some (.versionMismatch req.Version MinAcceptedVersion Version),
        events := [] } := by
  simp [setupFlow, h]

/-- Witness for C2 at a concrete out-of-window request (version 3 while the
window is [4, 4]). -/
theorem c2_witness :
    (req3.Version < MinAcceptedVersion ∨ req3.Version > Version) ∧
    setupFlow envOK ctx0 none req3 =
      { ctx := some ctx0, flow := none,
        err := some (.versionMismatch req3.Version MinAcceptedVersion Version),
        events := [] } :=
  ⟨Or.inl (by decide), c2_version_gate envOK ctx0 none req3 (Or.inl (by decide))⟩

/-- Claim C4: setupFlow invoked while the node id is still unresolved
(NodeID.Get() returning zero) always returns an error, for every request
and every other input. -/
theorem c4_identity_required (env : ServerEnv) (ctx : Context)
    (parentSpan : Option Span) (req : SetupFlowRequest)
    (h : env.nodeID = 0) :
    (setupFlow env ctx parentSpan req).err.isSome := by
  by_cases hv : req.Version < MinAcceptedVersion ∨ req.Version > Version
  · simp [setupFlow, hv]
  · simp [setupFlow, hv, h]

/-- Witness for C4 at a concrete in-window request against an environment
with an unresolved node id. -/
theorem c4_witness :
    envNoNode.nodeID = 0 ∧ (setupFlow envNoNode ctx0 none req4).err.isSome :=
  ⟨rfl, c4_identity_required envNoNode ctx0 none req4 rfl⟩

/-- Claim C10: the context returned by setupFlow on failure is not uniform
across error paths. On the identity-not-resolved failure the returned
context is nil (none); on the version-mismatch failure the original
context is returned; on the time-zone failure a context carrying the new
span is returned; on the DAG-wiring failure a context with the span
detached is returned — all three non-nil. Moreover the version check runs
before the identity check: a request that is both out-of-version and
pre-identity fails with the version-mismatch error. -/
theorem c10_failure_context_shapes (env : ServerEnv) (ctx : Context)
    (parentSpan : Option Span) (req : SetupFlowRequest) :
    (env.nodeID = 0 →
      ¬(req.Version < MinAcceptedVersion ∨ req.Version > Version) →
      (setupFlow env ctx parentSpan req).ctx = none) ∧
    ((req.Version < MinAcceptedVersion ∨ req.Version > Version) →
      (setupFlow env ctx parentSpan req).ctx = some ctx ∧
      (setupFlow env ctx parentSpan req).err =
        some (.versionMismatch req.Version MinAcceptedVersion Version)) ∧
    (∀ e, ¬(req.Version < MinAcceptedVersion ∨ req.Version > Version) →
      env.nodeID ≠ 0 →
      env.tzToLocation req.EvalContext.Location = .error e →
      (setupFlow env ctx parentSpan req).ctx =
        some { span := some env.freshSpan }) ∧
    (∀ e l, ¬(req.Version < MinAcceptedVersion ∨ req.Version > Version) →
      env.nodeID ≠ 0 →
      env.tzToLocation req.EvalContext.Location = .ok l →
      env.flowSetup req.Flow = .error e →
      (setupFlow env ctx parentSpan req).ctx = some { span := none }) := by
  refine ⟨?_, ?_, ?_, ?_⟩
  · intro h hv
    simp [setupFlow, hv, h]
  · intro hv
    simp [setupFlow, hv]
  · intro e hv hn htz
    simp [setupFlow, hv, hn, htz]
  · intro e l hv hn htz hf
    simp [setupFlow, hv, hn, htz, hf]

/-- Witness for C10: at concrete inputs, the identity failure returns a nil
context while the version failure (even with the node id unresolved)
returns the version-mismatch error with a non-nil context. -/
theorem c10_witness :
    (setupFlow envNoNode ctx0 none req4).ctx = none ∧
    (setupFlow envNoNode ctx0 none req3).ctx = some ctx0 ∧
    (setupFlow envNoNode ctx0 none req3).err =
      some (.versionMismatch req3.Version MinAcceptedVersion Version) :=
  ⟨(c10_failure_context_shapes envNoNode ctx0 none req4).1 rfl (by decide),
   ((c10_failure_context_shapes envNoNode ctx0 none req3).2.1
      (Or.inl (by decide))).1,
   ((c10_failure_context_shapes envNoNode ctx0 none req3).2.1
      (Or.inl (by decide))).2⟩

/-- Claim C8: when the flow DAG wiring step fails, setupFlow aborts with
that error and no flow, the span it opened is finished exactly once, and
the returned context has the span detached (it carries no span). -/
theorem c8_wiring_failure_detaches_span (env : ServerEnv) (ctx : Context)
    (parentSpan : Option Span) (req : SetupFlowRequest) (e : String)
    (l : Location)
    (hv : ¬(req.Version < MinAcceptedVersion ∨ req.Version > Version))
    (hn : env.nodeID ≠ 0)
    (htz : env.tzToLocation req.EvalContext.Location = .ok l)
    (hf : env.flowSetup req.Flow = .error e) :
    (setupFlow env ctx parentSpan req).err = some (.flowSetupError e) ∧
    (setupFlow env ctx parentSpan req).flow = none ∧
    (setupFlow env ctx parentSpan req).events.count
      (Event.spanFinish env.freshSpan) = 1 ∧
    (setupFlow env ctx parentSpan req).ctx = some { span := none } := by
  simp [setupFlow, hv, hn, htz, hf, List.count_cons, beq_iff_eq]

/-- Witness for C8 at a concrete request against an environment whose DAG
wiring fails. -/
theorem c8_witness :
    ¬(req4.Version < MinAcceptedVersion ∨ req4.Version > Version) ∧
    envWireFail.nodeID ≠ 0 ∧
    (setupFlow envWireFail ctx0 none req4).err =
      some (.flowSetupError "unknown processor") ∧
    (setupFlow envWireFail ctx0 none req4).ctx = some { span := none } :=
  ⟨by decide, by decide,
   (c8_wiring_failure_detaches_span envWireFail ctx0 none req4
      "unknown processor" { name := "UTC" } (by decide) (by decide) rfl rfl).1,
   (c8_wiring_failure_detaches_span envWireFail ctx0 none req4
      "unknown processor" { name := "UTC" } (by decide) (by decide) rfl rfl).2.2.2⟩

/-- Claim C1, counterexample: at a concrete in-window request whose
time-zone resolution fails (a setup failure occurring after the flow
monitor and bound account were opened), the setup attempt does abort with
an error, but the monitor and the bound account opened by the call are NOT
closed or released by it — the event trace records no monitor-stop and no
account-close, refuting the claim that they are closed/released exactly
once. -/
theorem c1_counterexample :
    (setupFlow envTZFail ctx0 none req4).err.isSome ∧
    ¬((setupFlow envTZFail ctx0 none req4).events.count Event.monitorStop = 1 ∧
      (setupFlow envTZFail ctx0 none req4).events.count Event.acctClose = 1) := by
  decide

/-- Claim C1 (amended): for every setup failure occurring after the flow
monitor and bound account have been opened (time-zone resolution failure
or DAG wiring failure), the setup attempt aborts with an error and no
flow, and the tracing span opened by the call is finished exactly once;
the flow monitor and bound account opened by the call, however, are not
closed or released by it — their closure is deferred to Flow.Cleanup,
which cannot run on these paths since no Flow is returned. -/
theorem c1_amended_post_open_failure (env : ServerEnv) (ctx : Context)
    (parentSpan : Option Span) (req : SetupFlowRequest)
    (hv : ¬(req.Version < MinAcceptedVersion ∨ req.Version > Version))
    (hn : env.nodeID ≠ 0)
    (hfail : (∃ e, env.tzToLocation req.EvalContext.Location = .error e) ∨
      ((∃ l, env.tzToLocation req.EvalContext.Location = .ok l) ∧
        ∃ e, env.flowSetup req.Flow = .error e)) :
    (setupFlow env ctx parentSpan req).err.isSome ∧
    (setupFlow env ctx parentSpan req).flow = none ∧
    (setupFlow env ctx parentSpan req).events =
      [.spanStart env.freshSpan parentSpan, .monitorStart, .acctOpen,
       .spanFinish env.freshSpan] ∧
    (setupFlow env ctx parentSpan req).events.count
      (Event.spanFinish env.freshSpan) = 1 ∧
    Event.monitorStop ∉ (setupFlow env ctx parentSpan req).events ∧
    Event.acctClose ∉ (setupFlow env ctx parentSpan req).events := by
  rcases hfail with ⟨e, htz⟩ | ⟨⟨l, htz⟩, e, hf⟩
  · simp [setupFlow, hv, hn, htz, List.count_cons, beq_iff_eq]
  · simp [setupFlow, hv, hn, htz, hf, List.count_cons, beq_iff_eq]

/-- Witness for the amended C1 at the concrete time-zone-failure
environment. -/
theorem c1_witness :
    ¬(req4.Version < MinAcceptedVersion ∨ req4.Version > Version) ∧
    envTZFail.nodeID ≠ 0 ∧
    (setupFlow envTZFail ctx0 none req4).events =
      [.spanStart envTZFail.freshSpan none, .monitorStart, .acctOpen,
       .spanFinish envTZFail.freshSpan] ∧
    Event.monitorStop ∉ (setupFlow envTZFail ctx0 none req4).events :=
  ⟨by decide, by decide,
   (c1_amended_post_open_failure envTZFail ctx0 none req4 (by decide)
      (by decide) (Or.inl ⟨"unknown zone", rfl⟩)).2.2.1,
   (c1_amended_post_open_failure envTZFail ctx0 none req4 (by decide)
      (by decide) (Or.inl ⟨"unknown zone", rfl⟩)).2.2.2.2.1⟩

/-- Claim C3: the unary SetupFlow entry point returns a nil transport-level
error for every request; its response embeds exactly the error produced by
flow setup or by scheduling (setup error taking precedence, scheduling
consulted only when setup succeeded), and a request that sets up and
schedules successfully yields a response with no embedded error. -/
theorem c3_errors_in_response_body (env : ServerEnv)
    (schedule : Option Context → Option Flow → Option GoError)
    (ctx : Context) (req : SetupFlowRequest) :
    (ServerImplSetupFlow env schedule ctx req).2 = none ∧
    ((ServerImplSetupFlow env schedule ctx req).1.Error = none ↔
      (setupFlow env { span := none } ctx.span req).err = none ∧
      schedule (setupFlow env { span := none } ctx.span req).ctx
        (setupFlow env { span := none } ctx.span req).flow = none) ∧
    (∀ e, (setupFlow env { span := none } ctx.span req).err = some e →
      (ServerImplSetupFlow env schedule ctx req).1.Error = some e) := by
  unfold ServerImplSetupFlow
  rcases hr : (setupFlow env { span := none } ctx.span req).err with _ | e
  · rcases hs : schedule (setupFlow env { span := none } ctx.span req).ctx
        (setupFlow env { span := none } ctx.span req).flow with _ | e2
    · simp [hr, hs]
    · simp [hr, hs]
  · simp [hr]

/-- Witness for C3: at a concrete all-success instance the transport error
is nil and the response embeds no error; at a concrete version-mismatch
instance the response embeds exactly the setup error. -/
theorem c3_witness :
    (ServerImplSetupFlow envOK (fun _ _ => none) ctx0 req4).2 = none ∧
    (ServerImplSetupFlow envOK (fun _ _ => none) ctx0 req4).1.Error = none ∧
    (ServerImplSetupFlow envOK (fun _ _ => none) ctx0 req3).1.Error =
      some (.versionMismatch req3.Version MinAcceptedVersion Version) :=
  ⟨(c3_errors_in_response_body envOK (fun _ _ => none) ctx0 req4).1,
   ((c3_errors_in_response_body envOK (fun _ _ => none) ctx0 req4).2.1).mpr
     ⟨by decide, rfl⟩,
   ((c3_errors_in_response_body envOK (fun _ _ => none) ctx0 req3).2.2)
     (.versionMismatch req3.Version MinAcceptedVersion Version) (by decide)⟩

/-- Claim C5: a RunSyncFlow invocation whose first stream message carries no
SetupFlowRequest fails immediately with the protocol error, with an empty
event trace: no flow is constructed or started and no memory monitor or
bound account is opened. -/
theorem c5_missing_setup_request (env : ServerEnv) (streamCtx : Context)
    (runTask : Except GoError Unit) (mboxErr : Option GoError)
    (msg : ConsumerSignal) (h : msg.SetupFlowRequest = none) :
    RunSyncFlow env streamCtx (.ok msg) runTask mboxErr =
      { err := some .missingSetupFlowRequest, events := [] } := by
  simp [RunSyncFlow, h]

/-- Witness for C5 at a concrete first message without a SetupFlowRequest. -/
theorem c5_witness :
    ({ SetupFlowRequest := none } : ConsumerSignal).SetupFlowRequest = none ∧
    RunSyncFlow envOK ctx0 (.ok { SetupFlowRequest := none }) (.ok ()) none =
      { err := some .missingSetupFlowRequest, events := [] } :=
  ⟨rfl, c5_missing_setup_request envOK ctx0 (.ok ()) none
    { SetupFlowRequest := none } rfl⟩

/-- Claim C6: when RunSyncFlow receives a first message carrying a setup
request, setup succeeds, and the supervised run task is accepted, the
value returned to the caller is exactly the terminal error recorded by the
output mailbox — whatever it is, including none (so a nil adapter error
yields a nil return even though flow execution reported no error). -/
theorem c6_returns_mbox_err (env : ServerEnv) (streamCtx : Context)
    (msg : ConsumerSignal) (req : SetupFlowRequest)
    (mboxErr : Option GoError)
    (hm : msg.SetupFlowRequest = some req)
    (hs : (SetupSyncFlow env streamCtx req).err = none) :
    (RunSyncFlow env streamCtx (.ok msg) (.ok ()) mboxErr).err = mboxErr := by
  simp [RunSyncFlow, hm, hs]

/-- Witness for C6 at a concrete successful setup, with a nil mailbox error
yielding a nil return. -/
theorem c6_witness :
    ({ SetupFlowRequest := some req4 } : ConsumerSignal).SetupFlowRequest =
      some req4 ∧
    (SetupSyncFlow envOK ctx0 req4).err = none ∧
    (RunSyncFlow envOK ctx0 (.ok { SetupFlowRequest := some req4 })
      (.ok ()) none).err = none :=
  ⟨rfl, by decide,
   c6_returns_mbox_err envOK ctx0 { SetupFlowRequest := some req4 } req4 none
     rfl (by decide)⟩

/-- Claim C7: for an inbound FlowStream connection, a clean end-of-stream
before any message yields the missing-header-message protocol error, and a
first message without a header yields the no-header protocol error, both
without attempting ConnectInboundStream; ConnectInboundStream is attempted
exactly when the first receive returns a message carrying a header. -/
theorem c7_header_gate (connect : FlowID → StreamID → Except GoError Unit)
    (process : Option GoError) :
    flowStreamInt (.error .ioEOF) connect process =
      { err := some .missingHeaderMessage, connectAttempted := false } ∧
    (∀ msg : ProducerMessage, msg.Header = none →
      flowStreamInt (.ok msg) connect process =
        { err := some .noHeaderInFirstMessage, connectAttempted := false }) ∧
    (∀ recv1 : Except GoError ProducerMessage,
      (flowStreamInt recv1 connect process).connectAttempted = true ↔
        ∃ msg hdr, recv1 = .ok msg ∧ msg.Header = some hdr) := by
  refine ⟨by simp [flowStreamInt], ?_, ?_⟩
  · intro msg h
    simp [flowStreamInt, h]
  · intro recv1
    rcases recv1 with e | msg
    · by_cases he : e = .ioEOF <;> simp [flowStreamInt, he]
    · rcases hh : msg.Header with _ | hdr
      · simp [flowStreamInt, hh]
      · rcases hc : connect hdr.flowID hdr.streamID with e | u <;>
          simp [flowStreamInt, hh, hc]

/-- Witness for C7 at a concrete connect oracle: a clean end-of-stream is a
protocol error without a connect attempt, and a concrete headered first
message leads to a connect attempt. -/
theorem c7_witness :
    flowStreamInt (.error .ioEOF) (fun _ _ => .ok ()) none =
      { err := some .missingHeaderMessage, connectAttempted := false } ∧
    (flowStreamInt
      (.ok { Header := some { flowID := { id := 1 }, streamID := { id := 2 } } })
      (fun _ _ => .ok ()) none).connectAttempted = true :=
  ⟨(c7_header_gate (fun _ _ => .ok ()) none).1,
   ((c7_header_gate (fun _ _ => .ok ()) none).2.2
      (.ok { Header := some { flowID := { id := 1 }, streamID := { id := 2 } } })).mpr
     ⟨{ Header := some { flowID := { id := 1 }, streamID := { id := 2 } } },
      { flowID := { id := 1 }, streamID := { id := 2 } }, rfl, rfl⟩⟩

/-- Claim C9: as long as the 64-bit counter does not wrap, a sequence of n
NewID calls starting from any generator state returns n distinct values
forming the contiguous range that starts immediately after the prior
high-water mark of the counter (the values nextID + 1 through nextID + n,
in order), and leaves the counter at nextID + n. -/
theorem c9_newID_contiguous (t : TempStorageIDGenerator) (n : Nat)
    (h : t.nextID + n < 2 ^ 64) :
    (t.newIDs n).2 = (List.range n).map (fun i => t.nextID + 1 + i) ∧
    (t.newIDs n).2.Nodup ∧
    (t.newIDs n).2.length = n ∧
    (t.newIDs n).1.nextID = t.nextID + n := by
  have main : ∀ m (u : TempStorageIDGenerator), u.nextID + m < 2 ^ 64 →
      (u.newIDs m).2 = (List.range m).map (fun i => u.nextID + 1 + i) ∧
      (u.newIDs m).1.nextID = u.nextID + m := by
    intro m
    induction m with
    | zero =>
      intro u hu
      simp [TempStorageIDGenerator.newIDs]
    | succ k ih =>
      intro u hu
      have h1 : u.nextID + 1 < 2 ^ 64 := by omega
      have hv : (u.nextID + 1) % 2 ^ 64 = u.nextID + 1 := Nat.mod_eq_of_lt h1
      have ihk := ih { nextID := u.nextID + 1 } (by simp; omega)
      simp only [TempStorageIDGenerator.newIDs, TempStorageIDGenerator.NewID,
        hv] at *
      refine ⟨?_, ?_⟩
      · rw [ihk.1, List.range_succ_eq_map, List.map_cons, List.map_map]
        refine congrArg₂ _ (by omega) ?_
        apply List.map_congr_left
        intro a _
        simp [Function.comp]
        omega
      · rw [ihk.2]
        omega
  have hm := main n t h
  refine ⟨hm.1, ?_, ?_, hm.2⟩
  · rw [hm.1]
    exact (List.nodup_range n).map (fun a b hab => by omega)
  · rw [hm.1]
    simp

/-- Witness for C9 at a concrete generator state and call count: three calls
from high-water mark 5 return 6, 7, 8 and leave the counter at 8. -/
theorem c9_witness :
    (5 : Nat) + 3 < 2 ^ 64 ∧
    (TempStorageIDGenerator.newIDs { nextID := 5 } 3).2 =
      (List.range 3).map (fun i => 5 + 1 + i) ∧
    (TempStorageIDGenerator.newIDs { nextID := 5 } 3).1.nextID = 5 + 3 :=
  ⟨by norm_num,
   (c9_newID_contiguous { nextID := 5 } 3 (by norm_num)).1,
   (c9_newID_contiguous { nextID := 5 } 3 (by norm_num)).2.2.2⟩

end DistSQLRun
